import Mathlib

/-!
Shallow embedding of bigcheck.rs (src/src/lib.rs), a property-based testing
engine: a seeded run loop that grows random inputs, executes a predicate in an
isolated thread, and shrinks the first falsifying input.

Modelling conventions:
* The seeded `StdRng` is modelled as a deterministic stream of natural-number
  draws with a position (`Rng`); `SeedableRng::from_seed` is a pure function of
  the seed, so `run` takes the resulting initial `Rng` state as a parameter.
* `rand::random::<bool>()` draws from the thread-local rng, a *different*
  source not derived from `config.seed`; it is modelled as a second stream
  (`GlobalRng`) threaded through the same `World` state.
* `Range::new(lo, hi).ind_sample(rng)` samples uniformly from `[lo, hi)`;
  modelled as `lo + draw % (hi - lo)`, with the `Range::new` assertion
  `lo < hi` turned into a panic value, as in the rand crate.
* `f64` arithmetic is modelled exactly by `ℚ`; `to_u32`/`to_uint` become
  range-checked floors. `u32` arithmetic wraps modulo `2 ^ 32` (the value
  `*value + 1` in `u32::shrink` can overflow).
* A Rust panic payload is `PanicMsg` (a `&str` message or an unprintable
  payload); a predicate is a function `Input → Option PanicMsg` where `none`
  means the call returned normally. `catch` (thread spawn + join) converts a
  panic into `Except.error` via `print_panic`. Panics raised by `grow`/`shrink`
  happen on the engine's own thread, outside `catch`, so `run` itself returns
  `Except PanicMsg (Run Input)`: an `error` is a panic that aborts the run.
* Rust `char` is modelled as a `Nat` code point; `String` as `List Nat`.
-/

namespace BigCheck

/-- A Rust panic payload: either a `&str` message or some other (unprintable)
payload. -/
inductive PanicMsg where
  | str (s : String)
  | other
deriving DecidableEq, Repr

/-- `print_panic` (src/src/lib.rs:53-55): downcast the payload to `&str`,
falling back to the fixed placeholder. -/
def print_panic : PanicMsg → String
  | .str s => s
  | .other => "<Unprintable panic>"

/-- Deterministic model of the seeded `StdRng`: an infinite stream of draws
and a current position. -/
structure Rng where
  stream : Nat → Nat
  pos : Nat

/-- Model of the thread-local rng behind `rand::random()`: a stream of
booleans, independent of the seeded `Rng`. -/
structure GlobalRng where
  stream : Nat → Bool
  pos : Nat

/-- The randomness state threaded through a run: the seeded rng plus the
process-global rng used by `rand::random()`. -/
structure World where
  rng : Rng
  glob : GlobalRng

/-- Model of `Range::new(lo, hi).ind_sample(rng)`: `Range::new` asserts
`lo < hi` (panicking otherwise); the sample is uniform over `[lo, hi)`,
modelled as the next draw reduced mod `hi - lo`. -/
def randRange (lo hi : Nat) (w : World) : Except PanicMsg (Nat × World) :=
  if lo < hi then
    .ok (lo + w.rng.stream w.rng.pos % (hi - lo),
      { w with rng := { w.rng with pos := w.rng.pos + 1 } })
  else
    .error (.str "Range::new called with low >= high")

/-- Model of `rand::random::<bool>()`: consumes one draw from the
thread-local rng, not the seeded one. -/
def randomBool (w : World) : Bool × World :=
  (w.glob.stream w.glob.pos,
    { w with glob := { w.glob with pos := w.glob.pos + 1 } })

/-- Model of `f64::to_u32` (ToPrimitive): `some` of the truncated value when
it fits in a `u32`, `none` otherwise. -/
def f64_to_u32 (q : ℚ) : Option Nat :=
  if 0 ≤ q ∧ q < 4294967296 then some (Int.floor q).toNat else none

/-- Model of `f64::to_uint` (ToPrimitive, 64-bit usize). -/
def f64_to_uint (q : ℚ) : Option Nat :=
  if 0 ≤ q ∧ q < 18446744073709551616 then some (Int.floor q).toNat else none

/-- `Option::unwrap`: panics on `None`. -/
def unwrapOpt : Option α → Except PanicMsg α
  | some a => .ok a
  | none => .error (.str "called Option::unwrap on a None value")

/-- The `Arbitrary` trait (src/src/lib.rs:48-51): `grow(rng, size)` and
`shrink(rng, value)`. Both run on the engine's own thread and may panic, so
they return `Except PanicMsg`. -/
structure Arbitrary (α : Type) where
  grow : World → ℚ → Except PanicMsg (α × World)
  shrink : World → α → Except PanicMsg (α × World)

/-- `Config` (src/src/lib.rs:19-25). `seed` is carried for faithfulness;
`run` receives the `Rng` state that `SeedableRng::from_seed(seed)` produces. -/
structure Config where
  seed : List Nat
  max_size : ℚ
  max_tests : Int
  max_shrinks : Int

/-- `Run<Input>` (src/src/lib.rs:27-37): the run result. -/
inductive Run (Input : Type) where
  | Success
  | Failure (num_tests : Int) (input : Input) (failure : String)
      (shrunk_input : Input) (shrunk_failure : String)
deriving DecidableEq, Repr

/-- `catch` (src/src/lib.rs:57-60): spawn a thread running `function(input)`,
join, and convert a panic payload into a `String` via `print_panic`. A
predicate is modelled as `Input → Option PanicMsg`, where `none` means the
invocation returned normally. -/
def catchF (f : Input → Option PanicMsg) (input : Input) : Except String Unit :=
  match f input with
  | none => .ok ()
  | some p => .error (print_panic p)

/-- The size passed to `grow` on test index `test`
(src/src/lib.rs:65): `max_size * (test as f64 / max_tests as f64)`,
`f64` arithmetic modelled exactly in `ℚ` (`i64::to_f64` always succeeds). -/
def sizeAt (config : Config) (test : Int) : ℚ :=
  config.max_size * ((test : ℚ) / (config.max_tests : ℚ))

/-- The shrink loop of `run` (src/src/lib.rs:72-79): `n` remaining
iterations of `for _ in (0..config.max_shrinks)`, carrying the current best
`shrunk_input`/`shrunk_failure`. Each candidate is derived by `shrink` from
the current best and replaces it exactly when its execution fails. -/
def shrinkLoop (gen : Arbitrary Input) (f : Input → Option PanicMsg) :
    Nat → World → Input → String → Except PanicMsg ((Input × String) × World)
  | 0, w, shrunk_input, shrunk_failure => .ok ((shrunk_input, shrunk_failure), w)
  | n + 1, w, shrunk_input, shrunk_failure =>
    match gen.shrink w shrunk_input with
    | .error e => .error e
    | .ok (next_shrunk_input, w1) =>
      match catchF f next_shrunk_input with
      | .error msg => shrinkLoop gen f n w1 next_shrunk_input msg
      | .ok _ => shrinkLoop gen f n w1 shrunk_input shrunk_failure

/-- The test loop of `run` (src/src/lib.rs:64-89): `test` is the current
test index, `r` the number of remaining iterations of
`for test in (0..config.max_tests)`. -/
def runLoop (gen : Arbitrary Input) (f : Input → Option PanicMsg)
    (config : Config) : Int → Nat → World → Except PanicMsg (Run Input)
  | _, 0, _ => .ok .Success
  | test, r + 1, w =>
    match gen.grow w (sizeAt config test) with
    | .error e => .error e
    | .ok (input, w1) =>
      match catchF f input with
      | .ok _ => runLoop gen f config (test + 1) r w1
      | .error failure =>
        match shrinkLoop gen f config.max_shrinks.toNat w1 input failure with
        | .error e => .error e
        | .ok ((shrunk_input, shrunk_failure), _) =>
          .ok (.Failure test input failure shrunk_input shrunk_failure)

/-- `run` (src/src/lib.rs:62-90). `rng0` is the `StdRng` state produced by
`SeedableRng::from_seed(config.seed)` (a pure function of the seed); `g0` is
the state of the thread-local rng behind `rand::random()`, which is *not*
derived from the seed. An `Except.error` is a panic escaping `run` itself. -/
def run (gen : Arbitrary Input) (f : Input → Option PanicMsg) (config : Config)
    (rng0 : Rng) (g0 : GlobalRng) : Except PanicMsg (Run Input) :=
  runLoop gen f config 0 config.max_tests.toNat ⟨rng0, g0⟩

/-! ### Built-in Arbitrary instances -/

/-- `impl Arbitrary for u32`, `grow` (src/src/lib.rs:97-99):
`Range::new(0, size.to_u32().unwrap() + 1).ind_sample(rng)`. The `+ 1` is
`u32` arithmetic, wrapping modulo `2 ^ 32`. -/
def u32Grow (w : World) (size : ℚ) : Except PanicMsg (Nat × World) :=
  match unwrapOpt (f64_to_u32 size) with
  | .error e => .error e
  | .ok s => randRange 0 ((s + 1) % 4294967296) w

/-- `impl Arbitrary for u32`, `shrink` (src/src/lib.rs:100-102):
`Range::new(0, *value + 1).ind_sample(rng)`; `*value + 1` wraps modulo
`2 ^ 32` (at `u32::MAX` the empty range makes `Range::new` panic; with debug
overflow checks the addition itself panics — a panic either way). -/
def u32Shrink (w : World) (value : Nat) : Except PanicMsg (Nat × World) :=
  randRange 0 ((value + 1) % 4294967296) w

/-- `char::MAX as u32` = 0x10FFFF. -/
def CHAR_MAX : Nat := 1114111

/-- Valid Unicode scalar values: everything up to 0x10FFFF except the
surrogate range 0xD800-0xDFFF. -/
def validCharCode (n : Nat) : Bool :=
  decide (n < 55296) || (decide (57343 < n) && decide (n ≤ 1114111))

/-- `char::from_u32`: `some` for a valid scalar value, `none` otherwise
(in particular `none` on surrogates). -/
def char_from_u32 (n : Nat) : Option Nat :=
  if validCharCode n then some n else none

/-- `impl Arbitrary for char`, `grow` (src/src/lib.rs:106-110): sample a code
point from `0 ..= min(size.to_u32().unwrap(), char::MAX as u32)` and
`char::from_u32(..).unwrap()` it. -/
def charGrow (w : World) (size : ℚ) : Except PanicMsg (Nat × World) :=
  match unwrapOpt (f64_to_u32 size) with
  | .error e => .error e
  | .ok s =>
    let char_size := min s CHAR_MAX
    match randRange 0 (char_size + 1) w with
    | .error e => .error e
    | .ok (char_code, w1) =>
      match unwrapOpt (char_from_u32 char_code) with
      | .error e => .error e
      | .ok c => .ok (c, w1)

/-- `impl Arbitrary for char`, `shrink` (src/src/lib.rs:111-114): sample a
code point from `0 ..= value as u32` and `char::from_u32(..).unwrap()` it. -/
def charShrink (w : World) (value : Nat) : Except PanicMsg (Nat × World) :=
  match randRange 0 (value + 1) w with
  | .error e => .error e
  | .ok (char_code, w1) =>
    match unwrapOpt (char_from_u32 char_code) with
    | .error e => .error e
    | .ok c => .ok (c, w1)

/-- The push loop of `String::grow` (src/src/lib.rs:121-123): push `length`
chars, each grown at the same `size`. -/
def strGrowLoop (size : ℚ) : Nat → World → Except PanicMsg (List Nat × World)
  | 0, w => .ok ([], w)
  | n + 1, w =>
    match charGrow w size with
    | .error e => .error e
    | .ok (c, w1) =>
      match strGrowLoop size n w1 with
      | .error e => .error e
      | .ok (cs, w2) => .ok (c :: cs, w2)

/-- `impl Arbitrary for String`, `grow` (src/src/lib.rs:118-125): sample a
length from `0 ..= size.to_uint().unwrap()`, then push that many grown
chars. -/
def strGrow (w : World) (size : ℚ) : Except PanicMsg (List Nat × World) :=
  match unwrapOpt (f64_to_uint size) with
  | .error e => .error e
  | .ok s =>
    match randRange 0 (s + 1) w with
    | .error e => .error e
    | .ok (length, w1) => strGrowLoop size length w1

/-- `impl Arbitrary for String`, `shrink` (src/src/lib.rs:126-137): if
nonempty, pick an index from the seeded rng, remove the char there, and —
depending on a coin drawn from the *thread-local* rng via `rand::random()` —
either reinsert a shrunk copy of it or leave it removed. -/
def strShrink (w : World) (value : List Nat) : Except PanicMsg (List Nat × World) :=
  if value.length > 0 then
    match randRange 0 value.length w with
    | .error e => .error e
    | .ok (ix, w1) =>
      let ch := value.getD ix 0
      let chars := value.eraseIdx ix
      let (coin, w2) := randomBool w1
      if coin then
        match charShrink w2 ch with
        | .error e => .error e
        | .ok (c, w3) => .ok (chars.insertIdx ix c, w3)
      else
        .ok (chars, w2)
  else
    .ok (value, w)

/-- `impl Arbitrary for (A,B)`, `grow` (src/src/lib.rs:144-146): grow each
component at the same size, in order. -/
def pairGrow (ga : Arbitrary α) (gb : Arbitrary β) (w : World) (size : ℚ) :
    Except PanicMsg ((α × β) × World) :=
  match ga.grow w size with
  | .error e => .error e
  | .ok (a, w1) =>
    match gb.grow w1 size with
    | .error e => .error e
    | .ok (b, w2) => .ok ((a, b), w2)

/-- `impl Arbitrary for (A,B)`, `shrink` (src/src/lib.rs:147-154): pick a
component index from `Range::new(0, 2)` on the seeded rng, shrink that
component, return the other one cloned unchanged. -/
def pairShrink (ga : Arbitrary α) (gb : Arbitrary β) (w : World) (value : α × β) :
    Except PanicMsg ((α × β) × World) :=
  match randRange 0 2 w with
  | .error e => .error e
  | .ok (i, w1) =>
    match i with
    | 0 =>
      match ga.shrink w1 value.1 with
      | .error e => .error e
      | .ok (a, w2) => .ok ((a, value.2), w2)
    | 1 =>
      match gb.shrink w1 value.2 with
      | .error e => .error e
      | .ok (b, w2) => .ok ((value.1, b), w2)
    | _ => .error (.str "internal error: entered unreachable code")

/-- `impl Arbitrary for (A,B,C)`, `grow` (src/src/lib.rs:158-160). -/
def tripleGrow (ga : Arbitrary α) (gb : Arbitrary β) (gc : Arbitrary γ)
    (w : World) (size : ℚ) : Except PanicMsg ((α × β × γ) × World) :=
  match ga.grow w size with
  | .error e => .error e
  | .ok (a, w1) =>
    match gb.grow w1 size with
    | .error e => .error e
    | .ok (b, w2) =>
      match gc.grow w2 size with
      | .error e => .error e
      | .ok (c, w3) => .ok ((a, b, c), w3)

/-- `impl Arbitrary for (A,B,C)`, `shrink` (src/src/lib.rs:161-169): pick a
component index from `Range::new(0, 3)`, shrink that component only. -/
def tripleShrink (ga : Arbitrary α) (gb : Arbitrary β) (gc : Arbitrary γ)
    (w : World) (value : α × β × γ) : Except PanicMsg ((α × β × γ) × World) :=
  match randRange 0 3 w with
  | .error e => .error e
  | .ok (i, w1) =>
    match i with
    | 0 =>
      match ga.shrink w1 value.1 with
      | .error e => .error e
      | .ok (a, w2) => .ok ((a, value.2.1, value.2.2), w2)
    | 1 =>
      match gb.shrink w1 value.2.1 with
      | .error e => .error e
      | .ok (b, w2) => .ok ((value.1, b, value.2.2), w2)
    | 2 =>
      match gc.shrink w1 value.2.2 with
      | .error e => .error e
      | .ok (c, w2) => .ok ((value.1, value.2.1, c), w2)
    | _ => .error (.str "internal error: entered unreachable code")

/-- `impl Arbitrary for (A,B,C,D)`, `shrink` (src/src/lib.rs:176-185): pick a
component index from `Range::new(0, 4)`, shrink that component only. -/
def quadShrink (ga : Arbitrary α) (gb : Arbitrary β) (gc : Arbitrary γ)
    (gd : Arbitrary δ) (w : World) (value : α × β × γ × δ) :
    Except PanicMsg ((α × β × γ × δ) × World) :=
  match randRange 0 4 w with
  | .error e => .error e
  | .ok (i, w1) =>
    match i with
    | 0 =>
      match ga.shrink w1 value.1 with
      | .error e => .error e
      | .ok (a, w2) => .ok ((a, value.2.1, value.2.2.1, value.2.2.2), w2)
    | 1 =>
      match gb.shrink w1 value.2.1 with
      | .error e => .error e
      | .ok (b, w2) => .ok ((value.1, b, value.2.2.1, value.2.2.2), w2)
    | 2 =>
      match gc.shrink w1 value.2.2.1 with
      | .error e => .error e
      | .ok (c, w2) => .ok ((value.1, value.2.1, c, value.2.2.2), w2)
    | 3 =>
      match gd.shrink w1 value.2.2.2 with
      | .error e => .error e
      | .ok (d, w2) => .ok ((value.1, value.2.1, value.2.2.1, d), w2)
    | _ => .error (.str "internal error: entered unreachable code")

/-- `impl Arbitrary for (A,B,C,D,E)`, `shrink` (src/src/lib.rs:192-202): pick
a component index from `Range::new(0, 5)`, shrink that component only. -/
def quintShrink (ga : Arbitrary α) (gb : Arbitrary β) (gc : Arbitrary γ)
    (gd : Arbitrary δ) (ge : Arbitrary ε) (w : World)
    (value : α × β × γ × δ × ε) :
    Except PanicMsg ((α × β × γ × δ × ε) × World) :=
  match randRange 0 5 w with
  | .error e => .error e
  | .ok (i, w1) =>
    match i with
    | 0 =>
      match ga.shrink w1 value.1 with
      | .error e => .error e
      | .ok (a, w2) =>
        .ok ((a, value.2.1, value.2.2.1, value.2.2.2.1, value.2.2.2.2), w2)
    | 1 =>
      match gb.shrink w1 value.2.1 with
      | .error e => .error e
      | .ok (b, w2) =>
        .ok ((value.1, b, value.2.2.1, value.2.2.2.1, value.2.2.2.2), w2)
    | 2 =>
      match gc.shrink w1 value.2.2.1 with
      | .error e => .error e
      | .ok (c, w2) =>
        .ok ((value.1, value.2.1, c, value.2.2.2.1, value.2.2.2.2), w2)
    | 3 =>
      match gd.shrink w1 value.2.2.2.1 with
      | .error e => .error e
      | .ok (d, w2) =>
        .ok ((value.1, value.2.1, value.2.2.1, d, value.2.2.2.2), w2)
    | 4 =>
      match ge.shrink w1 value.2.2.2.2 with
      | .error e => .error e
      | .ok (e, w2) =>
        .ok ((value.1, value.2.1, value.2.2.1, value.2.2.2.1, e), w2)
    | _ => .error (.str "internal error: entered unreachable code")

/-- The push loop of `Vec::grow` (src/src/lib.rs:211-213). -/
def vecGrowLoop (g : Arbitrary α) (size : ℚ) :
    Nat → World → Except PanicMsg (List α × World)
  | 0, w => .ok ([], w)
  | n + 1, w =>
    match g.grow w size with
    | .error e => .error e
    | .ok (a, w1) =>
      match vecGrowLoop g size n w1 with
      | .error e => .error e
      | .ok (as_, w2) => .ok (a :: as_, w2)

/-- `impl Arbitrary for Vec<A>`, `grow` (src/src/lib.rs:208-215): sample a
length from `0 ..= size.to_uint().unwrap()`, then push that many elements
grown at the same (undecremented) size. -/
def vecGrow (g : Arbitrary α) (w : World) (size : ℚ) :
    Except PanicMsg (List α × World) :=
  match unwrapOpt (f64_to_uint size) with
  | .error e => .error e
  | .ok s =>
    match randRange 0 (s + 1) w with
    | .error e => .error e
    | .ok (length, w1) => vecGrowLoop g size length w1

/-- `impl Arbitrary for Vec<A>`, `shrink` (src/src/lib.rs:216-227): if
nonempty, pick an index from the seeded rng, remove the element there, and —
depending on a coin drawn from the *thread-local* rng via `rand::random()` —
either reinsert a shrunk copy of it or leave it removed. -/
def vecShrink (g : Arbitrary α) (w : World) (value : List α) :
    Except PanicMsg (List α × World) :=
  if h : value.length > 0 then
    match randRange 0 value.length w with
    | .error e => .error e
    | .ok (ix, w1) =>
      let elem := value.getD ix (value.get ⟨0, h⟩)
      let vec := value.eraseIdx ix
      let (coin, w2) := randomBool w1
      if coin then
        match g.shrink w2 elem with
        | .error e => .error e
        | .ok (a, w3) => .ok (vec.insertIdx ix a, w3)
      else
        .ok (vec, w2)
  else
    .ok (value, w)

/-- The `u32` instance (src/src/lib.rs:96-103). -/
def u32Arbitrary : Arbitrary Nat := ⟨u32Grow, u32Shrink⟩

/-- The `char` instance (src/src/lib.rs:105-115). -/
def charArbitrary : Arbitrary Nat := ⟨charGrow, charShrink⟩

/-- The `String` instance (src/src/lib.rs:117-138). -/
def strArbitrary : Arbitrary (List Nat) := ⟨strGrow, strShrink⟩

/-- The `Vec<A>` instance (src/src/lib.rs:207-227). -/
def vecArbitrary (g : Arbitrary α) : Arbitrary (List α) :=
  ⟨vecGrow g, vecShrink g⟩

/-- The `(A,B)` instance (src/src/lib.rs:143-155). -/
def pairArbitrary (ga : Arbitrary α) (gb : Arbitrary β) : Arbitrary (α × β) :=
  ⟨pairGrow ga gb, pairShrink ga gb⟩

/-! ### Concrete test fixtures used by witnesses and counterexamples -/

/-- A trivial, total generator instance: grows a fixed value and shrinks to
the input itself. Used only as a concrete `Arbitrary` instance in witnesses. -/
def constArbitrary : Arbitrary Unit :=
  ⟨fun w _ => .ok ((), w), fun w v => .ok (v, w)⟩

/-- A generator instance whose `grow` panics immediately. Used only as a
concrete `Arbitrary` instance in witnesses. -/
def panickyArbitrary : Arbitrary Unit :=
  ⟨fun _ _ => .error (.str "boom in grow"), fun _ _ => .error (.str "boom in shrink")⟩

/-- An rng stream: draw `1` everywhere except position 4, where it draws
`0`. Steers the C1 scenario. -/
def rngC1 : Rng := ⟨fun n => if n = 4 then 0 else 1, 0⟩

/-- An rng stream that always draws 0. -/
def rngZero : Rng := ⟨fun _ => 0, 0⟩

/-- An rng stream that always draws 55296 (the surrogate 0xD800). -/
def rngSurrogate : Rng := ⟨fun _ => 55296, 0⟩

/-- Thread-local rng with all coins true. -/
def globTrue : GlobalRng := ⟨fun _ => true, 0⟩

/-- Thread-local rng with all coins false. -/
def globFalse : GlobalRng := ⟨fun _ => false, 0⟩

/-- A world with both streams constantly zero / false. -/
def worldZero : World := ⟨rngZero, globFalse⟩

/-- Config for the C1 scenario: two tests ramping size 0 then 1, one shrink. -/
def configC1 : Config := ⟨[0], 2, 2, 1⟩

/-- Config for the C2 counterexample: second test has size 55296 = 0xD800. -/
def configC2 : Config := ⟨[0], 110592, 2, 0⟩

/-- A small config with one test and one shrink, size 0. -/
def configSmall : Config := ⟨[0], 0, 1, 1⟩

/-- A predicate that panics (with a printable message) exactly on nonempty
strings. -/
def failNonEmpty (s : List Nat) : Option PanicMsg :=
  if s.isEmpty then none else some (.str "boom")

/-- A predicate that always panics with the printable message "boom". -/
def alwaysBoom (_ : Input) : Option PanicMsg := some (.str "boom")

/-- A predicate that never panics. -/
def alwaysOk (_ : Input) : Option PanicMsg := none

/-- A config with `max_tests = 0`. -/
def configZero : Config := ⟨[0], 0, 0, 0⟩

/-- `worldZero` after two draws from the seeded rng. -/
def worldZeroAfter2 : World := ⟨⟨fun _ => 0, 2⟩, ⟨fun _ => false, 0⟩⟩

/-! ### Helper lemmas -/

/-- While the best-known shrunk pair falsifies the predicate, it still does
after any number of shrink-loop iterations: the pair is replaced only by a
candidate whose own execution failed. -/
theorem shrinkLoop_preserves_falsification (gen : Arbitrary Input)
    (f : Input → Option PanicMsg) :
    ∀ (n : Nat) (w : World) (best : Input) (bestF : String) (si : Input)
      (sf : String) (w2 : World),
      catchF f best = .error bestF →
      shrinkLoop gen f n w best bestF = .ok ((si, sf), w2) →
      catchF f si = .error sf := by
  intro n
  induction n with
  | zero =>
    intro w best bestF si sf w2 hbest h
    simp only [shrinkLoop] at h
    obtain ⟨⟨h1, h2⟩, -⟩ := by simpa using h
    rw [← h1, ← h2]; exact hbest
  | succ n ih =>
    intro w best bestF si sf w2 hbest h
    simp only [shrinkLoop] at h
    cases hs : gen.shrink w best with
    | error e => simp only [hs] at h; cases h
    | ok cw =>
      obtain ⟨cand, w1⟩ := cw
      simp only [hs] at h
      cases hc : catchF f cand with
      | error msg => simp only [hc] at h; exact ih w1 cand msg si sf w2 hc h
      | ok u => simp only [hc] at h; exact ih w1 best bestF si sf w2 hbest h

/-- Every `Failure` returned by `runLoop` carries an original pair and a
shrunk pair that both falsify the predicate. -/
theorem runLoop_failure_falsifies (gen : Arbitrary Input)
    (f : Input → Option PanicMsg) (config : Config) :
    ∀ (r : Nat) (test : Int) (w : World) (nt : Int) (inp : Input)
      (fl : String) (si : Input) (sf : String),
      runLoop gen f config test r w = .ok (.Failure nt inp fl si sf) →
      catchF f inp = .error fl ∧ catchF f si = .error sf := by
  intro r
  induction r with
  | zero => intro test w nt inp fl si sf h; simp [runLoop] at h
  | succ r ih =>
    intro test w nt inp fl si sf h
    simp only [runLoop] at h
    cases hg : gen.grow w (sizeAt config test) with
    | error e => simp only [hg] at h; cases h
    | ok iw =>
      obtain ⟨input, w1⟩ := iw
      simp only [hg] at h
      cases hc : catchF f input with
      | ok u => simp only [hc] at h; exact ih (test + 1) w1 nt inp fl si sf h
      | error failure =>
        simp only [hc] at h
        cases hsl : shrinkLoop gen f config.max_shrinks.toNat w1 input failure with
        | error e => simp only [hsl] at h; cases h
        | ok out =>
          obtain ⟨⟨si', sf'⟩, w2⟩ := out
          simp only [hsl] at h
          obtain ⟨-, h2, h3, h4, h5⟩ := by simpa using h
          subst h2; subst h3; subst h4; subst h5
          exact ⟨hc, shrinkLoop_preserves_falsification gen f _ w1 input
            failure si' sf' w2 hc hsl⟩

/-- If `shrink` never panics, the shrink loop never panics. -/
theorem shrinkLoop_total (gen : Arbitrary Input) (f : Input → Option PanicMsg)
    (hshrink : ∀ w v, ∃ r, gen.shrink w v = .ok r) :
    ∀ (n : Nat) (w : World) (best : Input) (bestF : String),
      ∃ out, shrinkLoop gen f n w best bestF = .ok out := by
  intro n
  induction n with
  | zero => intro w best bestF; exact ⟨((best, bestF), w), rfl⟩
  | succ n ih =>
    intro w best bestF
    obtain ⟨⟨cand, w1⟩, hs⟩ := hshrink w best
    cases hc : catchF f cand with
    | error msg =>
      obtain ⟨out, hout⟩ := ih w1 cand msg
      exact ⟨out, by simp only [shrinkLoop, hs, hc]; exact hout⟩
    | ok u =>
      obtain ⟨out, hout⟩ := ih w1 best bestF
      exact ⟨out, by simp only [shrinkLoop, hs, hc]; exact hout⟩

/-- If neither `grow` nor `shrink` ever panics, `runLoop` never panics. -/
theorem runLoop_total (gen : Arbitrary Input) (f : Input → Option PanicMsg)
    (config : Config) (hgrow : ∀ w s, ∃ r, gen.grow w s = .ok r)
    (hshrink : ∀ w v, ∃ r, gen.shrink w v = .ok r) :
    ∀ (r : Nat) (test : Int) (w : World),
      ∃ res, runLoop gen f config test r w = .ok res := by
  intro r
  induction r with
  | zero => intro test w; exact ⟨.Success, rfl⟩
  | succ r ih =>
    intro test w
    obtain ⟨⟨input, w1⟩, hg⟩ := hgrow w (sizeAt config test)
    cases hc : catchF f input with
    | ok u =>
      obtain ⟨res, hres⟩ := ih (test + 1) w1
      exact ⟨res, by simp only [runLoop, hg, hc]; exact hres⟩
    | error failure =>
      obtain ⟨⟨⟨si, sf⟩, w2⟩, hsl⟩ :=
        shrinkLoop_total gen f hshrink config.max_shrinks.toNat w1 input failure
      exact ⟨.Failure test input failure si sf, by simp only [runLoop, hg, hc, hsl]⟩

/-- Under a predicate that always panics with payload `p` and a total
`shrink`, the shrink loop returns a pair whose detail is `print_panic p`. -/
theorem shrinkLoop_const_panic (gen : Arbitrary Input) (p : PanicMsg)
    (hshrink : ∀ w v, ∃ r, gen.shrink w v = .ok r) :
    ∀ (n : Nat) (w : World) (best : Input),
      ∃ si w2, shrinkLoop gen (fun _ => some p) n w best (print_panic p)
        = .ok ((si, print_panic p), w2) := by
  intro n
  induction n with
  | zero => intro w best; exact ⟨best, w, rfl⟩
  | succ n ih =>
    intro w best
    obtain ⟨⟨cand, w1⟩, hs⟩ := hshrink w best
    obtain ⟨si, w2, hout⟩ := ih w1 cand
    refine ⟨si, w2, ?_⟩
    have hc : catchF (fun _ : Input => some p) cand = .error (print_panic p) := rfl
    simp only [shrinkLoop, hs, hc]
    exact hout

/-! ### Theorems for the claims -/

/-- C1. The claim asserts that for fixed seed, config and predicate, two
executions of `run` produce identical `RunResult` values, all randomness —
including that used by the built-in `String` and `Vec` shrink implementations
— being drawn from the seeded source. The code violates this: `String::shrink`
(src/src/lib.rs:131) and `Vec::shrink` (src/src/lib.rs:221) decide whether to
reinsert a shrunk copy of the removed element via `rand::random()`, the
thread-local rng, which is not derived from `config.seed`. This theorem
evaluates `run` at a concrete seeded-rng state, config and predicate, with
the thread-local stream all-true versus all-false: the first run shrinks the
failing string `[1]` to `[0]`, the second to `[1]`, so the two `RunResult`
values differ even though (seed, config, predicate) are identical. -/
theorem claim1_run_depends_on_thread_local_rng :
    run strArbitrary failNonEmpty configC1 rngC1 globTrue
        = .ok (.Failure 1 [1] "boom" [0] "boom") ∧
    run strArbitrary failNonEmpty configC1 rngC1 globFalse
        = .ok (.Failure 1 [1] "boom" [1] "boom") ∧
    (Run.Failure 1 [1] "boom" [0] "boom" : Run (List Nat))
        ≠ .Failure 1 [1] "boom" [1] "boom" := by
  have s0 : sizeAt ⟨[0], 2, 2, 1⟩ 0 = 0 := by norm_num [sizeAt]
  have s1 : sizeAt ⟨[0], 2, 2, 1⟩ 1 = 1 := by norm_num [sizeAt]
  refine ⟨?_, ?_, by decide⟩ <;>
    norm_num [run, runLoop, s0, s1, strArbitrary, strGrow, f64_to_uint,
      strGrowLoop, charGrow, f64_to_u32, CHAR_MAX, randRange, catchF,
      failNonEmpty, shrinkLoop, strShrink, charShrink, randomBool, unwrapOpt,
      char_from_u32, validCharCode, print_panic, configC1, rngC1, globTrue,
      globFalse]

/-- C9. The claim asserts the char generator is total: the code point sampled
inside `grow` (from `0 ..= min(size, char::MAX)`) and inside `shrink` (from
`0 ..= v as u32`) is always a valid char, so `char::from_u32(..).unwrap()`
never fails. The code's own comments (src/src/lib.rs:109,113 "cant fail")
assert the same — but the sampled range contains the surrogate code points
0xD800-0xDFFF, on which `char::from_u32` returns `None`. Evaluated here: with
size 55296.0 and an rng draw of 55296, `grow` samples code point 0xD800 and
panics; `shrink` of the valid char U+E000 (57344) with the same draw likewise
samples 0xD800 and panics. -/
theorem claim9_char_generator_panics_on_surrogates :
    charGrow ⟨rngSurrogate, globFalse⟩ (55296 : ℚ)
        = .error (.str "called Option::unwrap on a None value") ∧
    charShrink ⟨rngSurrogate, globFalse⟩ 57344
        = .error (.str "called Option::unwrap on a None value") := by
  constructor <;>
    (norm_num [charGrow, charShrink, f64_to_u32, CHAR_MAX, randRange,
      unwrapOpt, char_from_u32, validCharCode, rngSurrogate, globFalse] <;>
      simp)

/-- C10 counterexample. The claim asserts `u32::shrink` is total for *every*
input, in particular that `*value + 1` does not overflow at `v = u32::MAX`.
It does overflow: the wrapped bound is 0, the range `0 .. 0` is empty, and
`Range::new` panics (with debug overflow checks, the addition itself panics
— a panic either way). Evaluated at `v = u32::MAX = 4294967295`. -/
theorem claim10_u32_shrink_panics_at_max :
    u32Shrink worldZero 4294967295
        = .error (.str "Range::new called with low >= high") := by
  norm_num [u32Shrink, randRange, worldZero, rngZero, globFalse]

/-- C10 amended: `u32::shrink` is total for every value `v < u32::MAX`:
the bound `v + 1` does not overflow, the sampling range `0 .. v + 1` is
nonempty, and a value `≤ v` is returned without panicking. -/
theorem claim10_u32_shrink_total_below_max (w : World) (v : Nat)
    (h : v < 4294967295) :
    ∃ r w', u32Shrink w v = .ok (r, w') ∧ r ≤ v := by
  have hmod : (v + 1) % 4294967296 = v + 1 := Nat.mod_eq_of_lt (by omega)
  refine ⟨w.rng.stream w.rng.pos % (v + 1),
    { w with rng := { w.rng with pos := w.rng.pos + 1 } }, ?_, ?_⟩
  · simp [u32Shrink, randRange, hmod]
  · have := Nat.mod_lt (w.rng.stream w.rng.pos) (y := v + 1) (by omega)
    omega

/-- Witness for the amended C10 theorem at `v = 5` and a concrete world. -/
theorem claim10_witness : ∃ r w', u32Shrink worldZero 5 = .ok (r, w') ∧ r ≤ 5 :=
  claim10_u32_shrink_total_below_max worldZero 5 (by norm_num)

/-- C2 counterexample. The claim asserts `run` never raises for every
predicate, config and `Arbitrary` instance — in particular that the
generator's `grow`/`shrink` calls, executed on the engine's own thread,
cannot abort the run. But `grow`/`shrink` run *outside* the `catch` boundary
(src/src/lib.rs:66,73): only the predicate call is isolated in a spawned
thread. Evaluated with the repository's own char instance: on the second
test the size ramp reaches 55296.0, `char::grow` samples the surrogate
0xD800, and its `unwrap` panic propagates out of `run`. -/
theorem claim2_generator_panic_aborts_run :
    run charArbitrary alwaysOk configC2 rngSurrogate globFalse
        = .error (.str "called Option::unwrap on a None value") := by
  have s0 : sizeAt ⟨[0], 110592, 2, 0⟩ 0 = 0 := by norm_num [sizeAt]
  have s1 : sizeAt ⟨[0], 110592, 2, 0⟩ 1 = 55296 := by norm_num [sizeAt]
  norm_num [run, runLoop, s0, s1, charArbitrary, charGrow, f64_to_u32,
    CHAR_MAX, randRange, catchF, alwaysOk, unwrapOpt, char_from_u32,
    validCharCode, configC2, rngSurrogate, globFalse]
  simp

/-- C2 amended: `run` never raises provided the generator's `grow` and
`shrink` calls all return normally; every outcome, including one caused by a
predicate fault, is then returned as a `Run` value. (The unamended claim is
false: `grow`/`shrink` execute on the engine's own thread outside the
`catch` boundary, so a generator panic aborts the run — see the
counterexample theorem.) -/
theorem claim2_amended_run_never_raises (Input : Type) (gen : Arbitrary Input)
    (f : Input → Option PanicMsg) (config : Config) (rng0 : Rng)
    (g0 : GlobalRng) (hgrow : ∀ w s, ∃ r, gen.grow w s = .ok r)
    (hshrink : ∀ w v, ∃ r, gen.shrink w v = .ok r) :
    ∃ res, run gen f config rng0 g0 = .ok res :=
  runLoop_total gen f config hgrow hshrink config.max_tests.toNat 0 ⟨rng0, g0⟩

/-- Witness for the amended C2 theorem: a total generator instance, an
always-panicking predicate, and a concrete config and randomness state. -/
theorem claim2_amended_witness :
    ∃ res, run constArbitrary (alwaysBoom : Unit → Option PanicMsg)
      configSmall rngZero globFalse = .ok res :=
  claim2_amended_run_never_raises Unit constArbitrary alwaysBoom configSmall
    rngZero globFalse (fun w _ => ⟨((), w), rfl⟩) (fun w v => ⟨(v, w), rfl⟩)

/-- C3: in the shrink phase, each candidate is derived by `shrink` from the
current best shrunk input; a passing candidate is discarded (the best-known
state is unchanged); a failing candidate replaces the best-known pair.
Consequently every `(shrunk_input, shrunk_failure)` pair ever stored —
including the one in the final `Failure` — came from an execution that
falsified the predicate, and so did the original `(input, failure)` pair. -/
theorem claim3_shrink_from_best_and_monotone_acceptance :
    (∀ (Input : Type) (gen : Arbitrary Input) (f : Input → Option PanicMsg)
        (n : Nat) (w : World) (best : Input) (bestF : String) (cand : Input)
        (w1 : World),
      gen.shrink w best = .ok (cand, w1) → catchF f cand = .ok () →
      shrinkLoop gen f (n + 1) w best bestF = shrinkLoop gen f n w1 best bestF) ∧
    (∀ (Input : Type) (gen : Arbitrary Input) (f : Input → Option PanicMsg)
        (n : Nat) (w : World) (best : Input) (bestF : String) (cand : Input)
        (w1 : World) (msg : String),
      gen.shrink w best = .ok (cand, w1) → catchF f cand = .error msg →
      shrinkLoop gen f (n + 1) w best bestF = shrinkLoop gen f n w1 cand msg) ∧
    (∀ (Input : Type) (gen : Arbitrary Input) (f : Input → Option PanicMsg)
        (n : Nat) (w : World) (best : Input) (bestF : String) (si : Input)
        (sf : String) (w2 : World),
      catchF f best = .error bestF →
      shrinkLoop gen f n w best bestF = .ok ((si, sf), w2) →
      catchF f si = .error sf) ∧
    (∀ (Input : Type) (gen : Arbitrary Input) (f : Input → Option PanicMsg)
        (config : Config) (rng0 : Rng) (g0 : GlobalRng) (nt : Int)
        (inp : Input) (fl : String) (si : Input) (sf : String),
      run gen f config rng0 g0 = .ok (.Failure nt inp fl si sf) →
      catchF f inp = .error fl ∧ catchF f si = .error sf) := by
  refine ⟨?_, ?_, ?_, ?_⟩
  · intro Input gen f n w best bestF cand w1 hs hc
    simp only [shrinkLoop, hs, hc]
  · intro Input gen f n w best bestF cand w1 msg hs hc
    simp only [shrinkLoop, hs, hc]
  · intro Input gen f n w best bestF si sf w2 hbest h
    exact shrinkLoop_preserves_falsification gen f n w best bestF si sf w2 hbest h
  · intro Input gen f config rng0 g0 nt inp fl si sf h
    exact runLoop_failure_falsifies gen f config config.max_tests.toNat 0
      ⟨rng0, g0⟩ nt inp fl si sf h

/-- Witness for C3: the final conjunct applied to a concrete run that ends in
`Failure 0 0 "boom" 0 "boom"`. -/
theorem claim3_witness :
    catchF (alwaysBoom : Nat → Option PanicMsg) 0 = .error "boom" ∧
    catchF (alwaysBoom : Nat → Option PanicMsg) 0 = .error "boom" := by
  refine claim3_shrink_from_best_and_monotone_acceptance.2.2.2 Nat
    u32Arbitrary alwaysBoom configSmall rngZero globFalse 0 0 "boom" 0 "boom" ?_
  have s0 : sizeAt ⟨[0], 0, 1, 1⟩ 0 = 0 := by norm_num [sizeAt]
  norm_num [run, runLoop, s0, u32Arbitrary, u32Grow, u32Shrink, f64_to_u32,
    randRange, catchF, alwaysBoom, shrinkLoop, unwrapOpt, print_panic,
    configSmall, rngZero, globFalse]

/-- C4: for every config with `max_tests > 0` and a predicate that panics
with payload `p` on every invocation (and a generator whose `grow`/`shrink`
return normally), `run` returns `Failure` on the very first test, with
`num_tests = 0` and with both failure details equal to `print_panic p` —
i.e. to the panic message when the payload is a printable string, and to the
fixed placeholder `"<Unprintable panic>"` otherwise. -/
theorem claim4_fault_isolation (Input : Type) (gen : Arbitrary Input)
    (config : Config) (rng0 : Rng) (g0 : GlobalRng) (p : PanicMsg)
    (hgrow : ∀ w s, ∃ r, gen.grow w s = .ok r)
    (hshrink : ∀ w v, ∃ r, gen.shrink w v = .ok r)
    (htests : 0 < config.max_tests) :
    ∃ inp si, run gen (fun _ => some p) config rng0 g0
      = .ok (.Failure 0 inp (print_panic p) si (print_panic p)) := by
  obtain ⟨m, hm⟩ : ∃ m, config.max_tests.toNat = m + 1 :=
    ⟨config.max_tests.toNat - 1, by omega⟩
  obtain ⟨⟨inp, w1⟩, hg⟩ := hgrow ⟨rng0, g0⟩ (sizeAt config 0)
  have hc : catchF (fun _ : Input => some p) inp = .error (print_panic p) := rfl
  obtain ⟨si, w2, hsl⟩ :=
    shrinkLoop_const_panic gen p hshrink config.max_shrinks.toNat w1 inp
  refine ⟨inp, si, ?_⟩
  rw [run, hm]
  simp only [runLoop, hg, hc, hsl]

/-- Witness for C4, with both payload shapes: a printable panic message `"X"`
yields detail `"X"`; an unprintable payload yields the placeholder. -/
theorem claim4_witness :
    (∃ inp si, run constArbitrary (fun _ => some (PanicMsg.str "X"))
      configSmall rngZero globFalse = .ok (.Failure 0 inp "X" si "X")) ∧
    (∃ inp si, run constArbitrary (fun _ => some PanicMsg.other)
      configSmall rngZero globFalse
      = .ok (.Failure 0 inp "<Unprintable panic>" si "<Unprintable panic>")) :=
  ⟨claim4_fault_isolation Unit constArbitrary configSmall rngZero globFalse
      (.str "X") (fun w _ => ⟨((), w), rfl⟩) (fun w v => ⟨(v, w), rfl⟩)
      (by norm_num [configSmall]),
   claim4_fault_isolation Unit constArbitrary configSmall rngZero globFalse
      .other (fun w _ => ⟨((), w), rfl⟩) (fun w v => ⟨(v, w), rfl⟩)
      (by norm_num [configSmall])⟩

/-- C7: with `max_tests = 0`, `run` returns `Success` for every generator
instance and every predicate — in particular also for a generator whose
`grow` panics immediately and a predicate that always panics, which shows
that no generator call and no predicate invocation is performed. -/
theorem claim7_vacuous_success (Input : Type) (gen : Arbitrary Input)
    (f : Input → Option PanicMsg) (config : Config) (rng0 : Rng)
    (g0 : GlobalRng) (h : config.max_tests = 0) :
    run gen f config rng0 g0 = .ok .Success := by
  rw [run, h]
  rfl

/-- Witness for C7: even with the always-panicking generator and predicate,
a `max_tests = 0` run succeeds (so neither was ever invoked). -/
theorem claim7_witness :
    run panickyArbitrary (alwaysBoom : Unit → Option PanicMsg) configZero
      rngZero globFalse = .ok .Success :=
  claim7_vacuous_success Unit panickyArbitrary alwaysBoom configZero rngZero
    globFalse rfl

/-- C5: for a run with `max_tests = n > 0` and `max_size ≥ 0`, the size
passed to `grow` on test index `i` equals `max_size * i / n`, and the size
sequence is non-decreasing in the test index. (`f64` arithmetic is modelled
exactly in `ℚ`; the code computes `max_size * (i / n)`, which equals
`max_size * i / n` in exact arithmetic.) The last conjunct ties `sizeAt` to
the run loop: the generator is invoked at exactly `sizeAt config test`. -/
theorem claim5_size_ramp (config : Config) (n : Int)
    (hn : config.max_tests = n) (hpos : 0 < n) (hms : 0 ≤ config.max_size) :
    (∀ i : Int, 0 ≤ i → i < n → sizeAt config i = config.max_size * i / n) ∧
    (∀ i j : Int, 0 ≤ i → i ≤ j → sizeAt config i ≤ sizeAt config j) ∧
    (∀ (Input : Type) (gen : Arbitrary Input) (f : Input → Option PanicMsg)
        (test : Int) (r : Nat) (w : World) (e : PanicMsg),
      gen.grow w (sizeAt config test) = .error e →
      runLoop gen f config test (r + 1) w = .error e) := by
  refine ⟨?_, ?_, ?_⟩
  · intro i _ _
    simp only [sizeAt, hn]
    rw [mul_div_assoc]
  · intro i j hi hij
    simp only [sizeAt, hn]
    have hn' : (0 : ℚ) < (n : ℚ) := by exact_mod_cast hpos
    have hij' : (i : ℚ) ≤ (j : ℚ) := by exact_mod_cast hij
    exact mul_le_mul_of_nonneg_left ((div_le_div_iff_of_pos_right hn').mpr hij') hms
  · intro Input gen f test r w e hg
    simp only [runLoop, hg]

/-- Witness for C5 at `config = configC1` (`max_tests = 2`, `max_size = 2`),
test indices 0 and 1, and the always-panicking generator for the last part. -/
theorem claim5_witness :
    sizeAt configC1 1 = configC1.max_size * ((1 : Int) : ℚ) / ((2 : Int) : ℚ) ∧
    sizeAt configC1 0 ≤ sizeAt configC1 1 ∧
    runLoop panickyArbitrary (alwaysOk : Unit → Option PanicMsg) configC1 0 1
      worldZero = .error (.str "boom in grow") :=
  ⟨(claim5_size_ramp configC1 2 rfl (by norm_num)
      (by norm_num [configC1])).1 1 (by norm_num) (by norm_num),
   (claim5_size_ramp configC1 2 rfl (by norm_num)
      (by norm_num [configC1])).2.1 0 1 (by norm_num) (by norm_num),
   (claim5_size_ramp configC1 2 rfl (by norm_num)
      (by norm_num [configC1])).2.2 Unit panickyArbitrary alwaysOk 0 0
      worldZero (.str "boom in grow") rfl⟩

/-- C6: shrink non-expansion for the built-in generator instances. Whenever
`shrink` returns a value (it can also panic — see the C9/C10 theorems), the
returned value's magnitude is at most the input's under the type's natural
size measure: the returned `u32` is `≤ v`, the returned char's code point is
`≤ v`'s code point, and the returned `String`/`Vec` is no longer than `v`
(for `Vec<A>`, for every element instance). -/
theorem claim6_shrink_non_expansion :
    (∀ (w : World) (v r : Nat) (w' : World),
      u32Shrink w v = .ok (r, w') → r ≤ v) ∧
    (∀ (w : World) (v r : Nat) (w' : World),
      charShrink w v = .ok (r, w') → r ≤ v) ∧
    (∀ (w : World) (v r : List Nat) (w' : World),
      strShrink w v = .ok (r, w') → r.length ≤ v.length) ∧
    (∀ (α : Type) (g : Arbitrary α) (w : World) (v r : List α) (w' : World),
      vecShrink g w v = .ok (r, w') → r.length ≤ v.length) := by
  refine ⟨?_, ?_, ?_, ?_⟩
  · intro w v r w' h
    simp only [u32Shrink, randRange, Nat.sub_zero, Nat.zero_add] at h
    by_cases hb : 0 < (v + 1) % 4294967296
    · rw [if_pos hb] at h
      simp only [Except.ok.injEq, Prod.mk.injEq] at h
      obtain ⟨h1, -⟩ := h
      subst h1
      have hlt : w.rng.stream w.rng.pos % ((v + 1) % 4294967296)
          < (v + 1) % 4294967296 := Nat.mod_lt _ hb
      have hle : (v + 1) % 4294967296 ≤ v + 1 := Nat.mod_le _ _
      omega
    · rw [if_neg hb] at h
      cases h
  · intro w v r w' h
    have h1 : 0 < v + 1 := Nat.succ_pos v
    simp only [charShrink, randRange, if_pos h1, Nat.sub_zero, Nat.zero_add] at h
    cases hcv : char_from_u32 (w.rng.stream w.rng.pos % (v + 1)) with
    | none => simp only [hcv, unwrapOpt] at h; cases h
    | some c =>
      simp only [hcv, unwrapOpt] at h
      simp only [Except.ok.injEq, Prod.mk.injEq] at h
      obtain ⟨h2, -⟩ := h
      subst h2
      have hc : c = w.rng.stream w.rng.pos % (v + 1) := by
        unfold char_from_u32 at hcv
        split at hcv
        · exact (Option.some.inj hcv).symm
        · cases hcv
      have := Nat.mod_lt (w.rng.stream w.rng.pos) h1
      omega
  · intro w v r w' h
    by_cases hlen : v.length > 0
    · have hix : w.rng.stream w.rng.pos % v.length < v.length :=
        Nat.mod_lt _ hlen
      simp only [strShrink, if_pos hlen, randRange, Nat.sub_zero,
        Nat.zero_add, randomBool] at h
      split at h
      · split at h
        · cases h
        · simp only [Except.ok.injEq, Prod.mk.injEq] at h
          obtain ⟨h1, -⟩ := h
          subst h1
          refine le_trans (List.length_insertIdx_le_succ _ _ _) ?_
          have he := List.length_eraseIdx_add_one hix
          omega
      · simp only [Except.ok.injEq, Prod.mk.injEq] at h
        obtain ⟨h1, -⟩ := h
        subst h1
        have he := List.length_eraseIdx_add_one hix
        omega
    · simp only [strShrink, if_neg hlen] at h
      simp only [Except.ok.injEq, Prod.mk.injEq] at h
      obtain ⟨h1, -⟩ := h
      subst h1
      exact le_refl _
  · intro α g w v r w' h
    by_cases hlen : v.length > 0
    · have hix : w.rng.stream w.rng.pos % v.length < v.length :=
        Nat.mod_lt _ hlen
      simp only [vecShrink, hlen, dif_pos, randRange, Nat.sub_zero,
        Nat.zero_add, randomBool, if_true] at h
      split at h
      · split at h
        · cases h
        · simp only [Except.ok.injEq, Prod.mk.injEq] at h
          obtain ⟨h1, -⟩ := h
          subst h1
          refine le_trans (List.length_insertIdx_le_succ _ _ _) ?_
          have he := List.length_eraseIdx_add_one hix
          omega
      · simp only [Except.ok.injEq, Prod.mk.injEq] at h
        obtain ⟨h1, -⟩ := h
        subst h1
        have he := List.length_eraseIdx_add_one hix
        omega
    · rw [vecShrink, dif_neg hlen] at h
      simp only [Except.ok.injEq, Prod.mk.injEq] at h
      obtain ⟨h1, -⟩ := h
      subst h1
      exact le_refl _

/-- Witness for C6: each conjunct applied at a concrete world and input. -/
theorem claim6_witness :
    (0 : Nat) ≤ 5 ∧ (0 : Nat) ≤ 7 ∧
    ([] : List Nat).length ≤ [9].length ∧
    ([] : List Nat).length ≤ [3].length := by
  refine ⟨?_, ?_, ?_, ?_⟩
  · exact claim6_shrink_non_expansion.1 worldZero 5 0
      ⟨⟨rngZero.stream, 1⟩, globFalse⟩ (by simp [u32Shrink, randRange,
        worldZero, rngZero, globFalse])
  · exact claim6_shrink_non_expansion.2.1 worldZero 7 0
      ⟨⟨rngZero.stream, 1⟩, globFalse⟩ (by simp [charShrink, randRange,
        unwrapOpt, char_from_u32, validCharCode, worldZero, rngZero,
        globFalse])
  · exact claim6_shrink_non_expansion.2.2.1 worldZero [9] []
      ⟨⟨rngZero.stream, 1⟩, ⟨globFalse.stream, 1⟩⟩ (by simp [strShrink,
        randRange, randomBool, worldZero, rngZero, globFalse])
  · exact claim6_shrink_non_expansion.2.2.2 Nat u32Arbitrary worldZero [3] []
      ⟨⟨rngZero.stream, 1⟩, ⟨globFalse.stream, 1⟩⟩ (by simp [vecShrink,
        randRange, randomBool, worldZero, rngZero, globFalse])

/-- C8: tuple shrink (pairs through 5-tuples) selects exactly one component
index via `Range::new(0, k)` on the shared seeded randomness source (the
sample is uniform over the `k` indices), replaces that component with its
component-wise shrink, and returns every other component equal (a clone) to
the corresponding component of the input. -/
theorem claim8_tuple_shrink_single_component :
    (∀ (α β : Type) (ga : Arbitrary α) (gb : Arbitrary β) (w : World)
        (v out : α × β) (w2 : World),
      pairShrink ga gb w v = .ok (out, w2) →
      ∃ i w1, randRange 0 2 w = .ok (i, w1) ∧
        ((i = 0 ∧ out.2 = v.2 ∧ ga.shrink w1 v.1 = .ok (out.1, w2)) ∨
         (i = 1 ∧ out.1 = v.1 ∧ gb.shrink w1 v.2 = .ok (out.2, w2)))) ∧
    (∀ (α β γ : Type) (ga : Arbitrary α) (gb : Arbitrary β) (gc : Arbitrary γ)
        (w : World) (v out : α × β × γ) (w2 : World),
      tripleShrink ga gb gc w v = .ok (out, w2) →
      ∃ i w1, randRange 0 3 w = .ok (i, w1) ∧
        ((i = 0 ∧ out.2.1 = v.2.1 ∧ out.2.2 = v.2.2 ∧
            ga.shrink w1 v.1 = .ok (out.1, w2)) ∨
         (i = 1 ∧ out.1 = v.1 ∧ out.2.2 = v.2.2 ∧
            gb.shrink w1 v.2.1 = .ok (out.2.1, w2)) ∨
         (i = 2 ∧ out.1 = v.1 ∧ out.2.1 = v.2.1 ∧
            gc.shrink w1 v.2.2 = .ok (out.2.2, w2)))) ∧
    (∀ (α β γ δ : Type) (ga : Arbitrary α) (gb : Arbitrary β)
        (gc : Arbitrary γ) (gd : Arbitrary δ) (w : World)
        (v out : α × β × γ × δ) (w2 : World),
      quadShrink ga gb gc gd w v = .ok (out, w2) →
      ∃ i w1, randRange 0 4 w = .ok (i, w1) ∧
        ((i = 0 ∧ out.2.1 = v.2.1 ∧ out.2.2.1 = v.2.2.1 ∧
            out.2.2.2 = v.2.2.2 ∧ ga.shrink w1 v.1 = .ok (out.1, w2)) ∨
         (i = 1 ∧ out.1 = v.1 ∧ out.2.2.1 = v.2.2.1 ∧
            out.2.2.2 = v.2.2.2 ∧ gb.shrink w1 v.2.1 = .ok (out.2.1, w2)) ∨
         (i = 2 ∧ out.1 = v.1 ∧ out.2.1 = v.2.1 ∧
            out.2.2.2 = v.2.2.2 ∧ gc.shrink w1 v.2.2.1 = .ok (out.2.2.1, w2)) ∨
         (i = 3 ∧ out.1 = v.1 ∧ out.2.1 = v.2.1 ∧
            out.2.2.1 = v.2.2.1 ∧
            gd.shrink w1 v.2.2.2 = .ok (out.2.2.2, w2)))) ∧
    (∀ (α β γ δ ε : Type) (ga : Arbitrary α) (gb : Arbitrary β)
        (gc : Arbitrary γ) (gd : Arbitrary δ) (ge : Arbitrary ε) (w : World)
        (v out : α × β × γ × δ × ε) (w2 : World),
      quintShrink ga gb gc gd ge w v = .ok (out, w2) →
      ∃ i w1, randRange 0 5 w = .ok (i, w1) ∧
        ((i = 0 ∧ out.2.1 = v.2.1 ∧ out.2.2.1 = v.2.2.1 ∧
            out.2.2.2.1 = v.2.2.2.1 ∧ out.2.2.2.2 = v.2.2.2.2 ∧
            ga.shrink w1 v.1 = .ok (out.1, w2)) ∨
         (i = 1 ∧ out.1 = v.1 ∧ out.2.2.1 = v.2.2.1 ∧
            out.2.2.2.1 = v.2.2.2.1 ∧ out.2.2.2.2 = v.2.2.2.2 ∧
            gb.shrink w1 v.2.1 = .ok (out.2.1, w2)) ∨
         (i = 2 ∧ out.1 = v.1 ∧ out.2.1 = v.2.1 ∧
            out.2.2.2.1 = v.2.2.2.1 ∧ out.2.2.2.2 = v.2.2.2.2 ∧
            gc.shrink w1 v.2.2.1 = .ok (out.2.2.1, w2)) ∨
         (i = 3 ∧ out.1 = v.1 ∧ out.2.1 = v.2.1 ∧
            out.2.2.1 = v.2.2.1 ∧ out.2.2.2.2 = v.2.2.2.2 ∧
            gd.shrink w1 v.2.2.2.1 = .ok (out.2.2.2.1, w2)) ∨
         (i = 4 ∧ out.1 = v.1 ∧ out.2.1 = v.2.1 ∧
            out.2.2.1 = v.2.2.1 ∧ out.2.2.2.1 = v.2.2.2.1 ∧
            ge.shrink w1 v.2.2.2.2 = .ok (out.2.2.2.2, w2)))) := by
  refine ⟨?_, ?_, ?_, ?_⟩
  · intro α β ga gb w v out w2 h
    obtain ⟨v1, v2⟩ := v
    obtain ⟨o1, o2⟩ := out
    simp only [pairShrink, randRange] at h
    rw [if_pos (by norm_num : (0 : Nat) < 2)] at h
    simp only [Nat.sub_zero, Nat.zero_add] at h
    refine ⟨w.rng.stream w.rng.pos % 2,
      ⟨⟨w.rng.stream, w.rng.pos + 1⟩, w.glob⟩, by simp [randRange], ?_⟩
    split at h
    · rename_i hd
      split at h
      · cases h
      · rename_i a w2' heq
        simp only [Except.ok.injEq, Prod.mk.injEq] at h
        obtain ⟨⟨h1, h2⟩, hw⟩ := h
        exact Or.inl ⟨hd, h2.symm, by rw [← h1, ← hw]; exact heq⟩
    · rename_i hd
      split at h
      · cases h
      · rename_i b w2' heq
        simp only [Except.ok.injEq, Prod.mk.injEq] at h
        obtain ⟨⟨h1, h2⟩, hw⟩ := h
        exact Or.inr ⟨hd, h1.symm, by rw [← h2, ← hw]; exact heq⟩
    · rename_i hd
      cases h
  · intro α β γ ga gb gc w v out w2 h
    obtain ⟨v1, v2, v3⟩ := v
    obtain ⟨o1, o2, o3⟩ := out
    simp only [tripleShrink, randRange] at h
    rw [if_pos (by norm_num : (0 : Nat) < 3)] at h
    simp only [Nat.sub_zero, Nat.zero_add] at h
    refine ⟨w.rng.stream w.rng.pos % 3,
      ⟨⟨w.rng.stream, w.rng.pos + 1⟩, w.glob⟩, by simp [randRange], ?_⟩
    split at h
    · rename_i hd
      split at h
      · cases h
      · rename_i a w2' heq
        simp only [Except.ok.injEq, Prod.mk.injEq] at h
        obtain ⟨⟨h1, h2, h3⟩, hw⟩ := h
        exact Or.inl ⟨hd, h2.symm, h3.symm, by rw [← h1, ← hw]; exact heq⟩
    · rename_i hd
      split at h
      · cases h
      · rename_i b w2' heq
        simp only [Except.ok.injEq, Prod.mk.injEq] at h
        obtain ⟨⟨h1, h2, h3⟩, hw⟩ := h
        exact Or.inr (Or.inl ⟨hd, h1.symm, h3.symm, by rw [← h2, ← hw]; exact heq⟩)
    · rename_i hd
      split at h
      · cases h
      · rename_i c w2' heq
        simp only [Except.ok.injEq, Prod.mk.injEq] at h
        obtain ⟨⟨h1, h2, h3⟩, hw⟩ := h
        exact Or.inr (Or.inr ⟨hd, h1.symm, h2.symm, by rw [← h3, ← hw]; exact heq⟩)
    · rename_i hd
      cases h
  · intro α β γ δ ga gb gc gd w v out w2 h
    obtain ⟨v1, v2, v3, v4⟩ := v
    obtain ⟨o1, o2, o3, o4⟩ := out
    simp only [quadShrink, randRange] at h
    rw [if_pos (by norm_num : (0 : Nat) < 4)] at h
    simp only [Nat.sub_zero, Nat.zero_add] at h
    refine ⟨w.rng.stream w.rng.pos % 4,
      ⟨⟨w.rng.stream, w.rng.pos + 1⟩, w.glob⟩, by simp [randRange], ?_⟩
    split at h
    · rename_i hd
      split at h
      · cases h
      · rename_i a w2' heq
        simp only [Except.ok.injEq, Prod.mk.injEq] at h
        obtain ⟨⟨h1, h2, h3, h4⟩, hw⟩ := h
        exact Or.inl ⟨hd, h2.symm, h3.symm, h4.symm,
          by rw [← h1, ← hw]; exact heq⟩
    · rename_i hd
      split at h
      · cases h
      · rename_i b w2' heq
        simp only [Except.ok.injEq, Prod.mk.injEq] at h
        obtain ⟨⟨h1, h2, h3, h4⟩, hw⟩ := h
        exact Or.inr (Or.inl ⟨hd, h1.symm, h3.symm, h4.symm,
          by rw [← h2, ← hw]; exact heq⟩)
    · rename_i hd
      split at h
      · cases h
      · rename_i c w2' heq
        simp only [Except.ok.injEq, Prod.mk.injEq] at h
        obtain ⟨⟨h1, h2, h3, h4⟩, hw⟩ := h
        exact Or.inr (Or.inr (Or.inl ⟨hd, h1.symm, h2.symm, h4.symm,
          by rw [← h3, ← hw]; exact heq⟩))
    · rename_i hd
      split at h
      · cases h
      · rename_i d w2' heq
        simp only [Except.ok.injEq, Prod.mk.injEq] at h
        obtain ⟨⟨h1, h2, h3, h4⟩, hw⟩ := h
        exact Or.inr (Or.inr (Or.inr ⟨hd, h1.symm, h2.symm, h3.symm,
          by rw [← h4, ← hw]; exact heq⟩))
    · rename_i hd
      cases h
  · intro α β γ δ ε ga gb gc gd ge w v out w2 h
    obtain ⟨v1, v2, v3, v4, v5⟩ := v
    obtain ⟨o1, o2, o3, o4, o5⟩ := out
    simp only [quintShrink, randRange] at h
    rw [if_pos (by norm_num : (0 : Nat) < 5)] at h
    simp only [Nat.sub_zero, Nat.zero_add] at h
    refine ⟨w.rng.stream w.rng.pos % 5,
      ⟨⟨w.rng.stream, w.rng.pos + 1⟩, w.glob⟩, by simp [randRange], ?_⟩
    split at h
    · rename_i hd
      split at h
      · cases h
      · rename_i a w2' heq
        simp only [Except.ok.injEq, Prod.mk.injEq] at h
        obtain ⟨⟨h1, h2, h3, h4, h5⟩, hw⟩ := h
        exact Or.inl ⟨hd, h2.symm, h3.symm, h4.symm, h5.symm,
          by rw [← h1, ← hw]; exact heq⟩
    · rename_i hd
      split at h
      · cases h
      · rename_i b w2' heq
        simp only [Except.ok.injEq, Prod.mk.injEq] at h
        obtain ⟨⟨h1, h2, h3, h4, h5⟩, hw⟩ := h
        exact Or.inr (Or.inl ⟨hd, h1.symm, h3.symm, h4.symm, h5.symm,
          by rw [← h2, ← hw]; exact heq⟩)
    · rename_i hd
      split at h
      · cases h
      · rename_i c w2' heq
        simp only [Except.ok.injEq, Prod.mk.injEq] at h
        obtain ⟨⟨h1, h2, h3, h4, h5⟩, hw⟩ := h
        exact Or.inr (Or.inr (Or.inl ⟨hd, h1.symm, h2.symm, h4.symm, h5.symm,
          by rw [← h3, ← hw]; exact heq⟩))
    · rename_i hd
      split at h
      · cases h
      · rename_i d w2' heq
        simp only [Except.ok.injEq, Prod.mk.injEq] at h
        obtain ⟨⟨h1, h2, h3, h4, h5⟩, hw⟩ := h
        exact Or.inr (Or.inr (Or.inr (Or.inl ⟨hd, h1.symm, h2.symm, h3.symm,
          h5.symm, by rw [← h4, ← hw]; exact heq⟩)))
    · rename_i hd
      split at h
      · cases h
      · rename_i e w2' heq
        simp only [Except.ok.injEq, Prod.mk.injEq] at h
        obtain ⟨⟨h1, h2, h3, h4, h5⟩, hw⟩ := h
        exact Or.inr (Or.inr (Or.inr (Or.inr ⟨hd, h1.symm, h2.symm, h3.symm,
          h4.symm, by rw [← h5, ← hw]; exact heq⟩)))
    · rename_i hd
      cases h

/-- Witness for C8: the pair conjunct applied to a concrete pair shrink
(`u32` components, input `(3, 4)`, all-zero rng): index 0 is drawn, the
first component shrinks `3 ↦ 0`, the second stays `4`. -/
theorem claim8_witness :
    ∃ i w1, randRange 0 2 worldZero = .ok (i, w1) ∧
      ((i = 0 ∧ ((0, 4) : Nat × Nat).2 = ((3, 4) : Nat × Nat).2 ∧
          u32Arbitrary.shrink w1 3 = .ok (0, worldZeroAfter2)) ∨
       (i = 1 ∧ ((0, 4) : Nat × Nat).1 = ((3, 4) : Nat × Nat).1 ∧
          u32Arbitrary.shrink w1 4 = .ok (4, worldZeroAfter2))) :=
  claim8_tuple_shrink_single_component.1 Nat Nat u32Arbitrary u32Arbitrary
    worldZero (3, 4) (0, 4) worldZeroAfter2
    (by simp [pairShrink, randRange, u32Arbitrary, u32Shrink, worldZero,
      rngZero, globFalse, worldZeroAfter2])

end BigCheck
